import Mathlib

/-!
Shallow embedding of the AI SRE dashboard repository: the instrumented
sample Node.js application (apps/sample-node-app/server.js), the dashboard
SLA compliance badge (frontend SLAMetrics component), and the backend
aggregation core (incident lifecycle, health evaluation, SLA computation)
modelled from the specification, since the backend source itself is not
part of the visible tree.
-/

/- ### Sample application (apps/sample-node-app/server.js)

Module-level mutable counters of the Express app:
`let requestCount = 0; let errorCount = 0; let responseTimeSum = 0;`.
Times are milliseconds; all three counters are nonnegative integers in the
source (responseTimeSum accumulates integer millisecond deltas). -/

structure AppState where
  requestCount : Nat
  errorCount : Nat
  responseTimeSum : Nat
deriving DecidableEq, Repr

def initialAppState : AppState := ⟨0, 0, 0⟩

/-- Handler for GET /health: with probability 0.1 the simulated-failure branch
runs (`errorCount++`, early 500 return); otherwise `requestCount++` and
`responseTimeSum += responseTime`.  The random draw and the measured
response time are oracle parameters `fail` and `rt`. -/
def healthHandler (fail : Bool) (rt : Nat) (s : AppState) : AppState :=
  if fail then
    { s with errorCount := s.errorCount + 1 }
  else
    { s with requestCount := s.requestCount + 1,
             responseTimeSum := s.responseTimeSum + rt }

/-- Handler for GET /api/users: the try branch increments `requestCount` and
adds the measured delay to `responseTimeSum`; the catch branch increments
`errorCount` only. -/
def usersHandler (fail : Bool) (rt : Nat) (s : AppState) : AppState :=
  if fail then
    { s with errorCount := s.errorCount + 1 }
  else
    { s with requestCount := s.requestCount + 1,
             responseTimeSum := s.responseTimeSum + rt }

/-- Handler for GET /api/orders: with probability 0.15 the simulated error is
thrown and the catch branch runs `errorCount++` (503 response); otherwise
`requestCount++` and `responseTimeSum += responseTime`. -/
def ordersHandler (fail : Bool) (rt : Nat) (s : AppState) : AppState :=
  if fail then
    { s with errorCount := s.errorCount + 1 }
  else
    { s with requestCount := s.requestCount + 1,
             responseTimeSum := s.responseTimeSum + rt }

/-- Handler for POST /api/load: after the delay, `requestCount++` only. -/
def loadHandler (s : AppState) : AppState :=
  { s with requestCount := s.requestCount + 1 }

/-- One handled request, with its oracle choices. -/
inductive AppEvent where
  | health (fail : Bool) (rt : Nat)
  | users (fail : Bool) (rt : Nat)
  | orders (fail : Bool) (rt : Nat)
  | load
deriving DecidableEq, Repr

def appStep (e : AppEvent) (s : AppState) : AppState :=
  match e with
  | .health fail rt => healthHandler fail rt s
  | .users fail rt => usersHandler fail rt s
  | .orders fail rt => ordersHandler fail rt s
  | .load => loadHandler s

/-- Run a sequence of handled requests from a given state. -/
def appRun (s : AppState) (es : List AppEvent) : AppState :=
  es.foldl (fun t e => appStep e t) s

/-- The value printed on the `http_response_time_avg` line of `/metrics`:
`requestCount > 0 ? responseTimeSum / requestCount : 0`. -/
def httpResponseTimeAvg (s : AppState) : ℚ :=
  if s.requestCount > 0 then (s.responseTimeSum : ℚ) / (s.requestCount : ℚ) else 0

/-- One line of the `/metrics` text response: a `# ...` comment line, a
blank separator line, or a `key value` metric sample line. -/
inductive ExpoLine where
  | comment (text : String)
  | blank
  | sample (key : String) (value : ℚ)
deriving DecidableEq, Repr

/-- Handler for GET /metrics: the array of lines joined with newlines and sent
as `text/plain`.  `uptime` is `Math.floor(process.uptime())`. -/
def metricsHandler (s : AppState) (uptime : Nat) : List ExpoLine :=
  [ .comment "HELP http_requests_total Total number of HTTP requests",
    .comment "TYPE http_requests_total counter",
    .sample "http_requests_total" (s.requestCount : ℚ),
    .blank,
    .comment "HELP http_errors_total Total number of HTTP errors",
    .comment "TYPE http_errors_total counter",
    .sample "http_errors_total" (s.errorCount : ℚ),
    .blank,
    .comment "HELP http_response_time_avg Average HTTP response time",
    .comment "TYPE http_response_time_avg gauge",
    .sample "http_response_time_avg" (httpResponseTimeAvg s),
    .blank,
    .comment "HELP app_uptime Application uptime in seconds",
    .comment "TYPE app_uptime gauge",
    .sample "app_uptime" (uptime : ℚ) ]

/-- The metric sample lines of an exposition response, in order, ignoring
comments and blank separators. -/
def sampleLines (ls : List ExpoLine) : List (String × ℚ) :=
  ls.filterMap fun l =>
    match l with
    | .sample k v => some (k, v)
    | _ => none

/-- An error rate derived at the consumer side as `errorCount / requestCount`
over the raw counters. -/
def derivedErrorRate (s : AppState) : ℚ :=
  (s.errorCount : ℚ) / (s.requestCount : ℚ)

/- ### Dashboard SLA compliance badge (frontend SLAMetrics component)

the ternary on `data.availability_percentage >= data.sla_target` choosing between the COMPLIANT and NON-COMPLIANT badges. -/

def complianceBadge (availabilityPercentage slaTarget : ℚ) : String :=
  if availabilityPercentage ≥ slaTarget then "COMPLIANT" else "NON-COMPLIANT"

/- ### Backend aggregation core

Modelled from the spec: the backend API source (the FastAPI service with
the Telemetry Counter Store, Health Evaluator, Incident Manager and SLA
Calculator) is not part of the visible repository tree; the definitions
below follow sections 3, 4.2, 4.3 and 4.5 of the specification. -/

/-- Modelled from the spec: health states of section 3 (HealthRecord). -/
inductive HealthStatus where
  | healthy
  | degraded
  | unhealthy
  | unknown
deriving DecidableEq, Repr

/-- Modelled from the spec: incident severity levels of section 3. -/
inductive Severity where
  | low
  | medium
  | high
deriving DecidableEq, Repr

/-- Modelled from the spec: incident lifecycle states, `open` and
`resolved` (section 4.3); `opened` stands for the source's `open`. -/
inductive IncidentStatus where
  | opened
  | resolved
deriving DecidableEq, Repr

/-- Modelled from the spec: the Incident record of section 3.  Timestamps
are minutes since process start. -/
structure Incident where
  id : Nat
  title : String
  description : String
  severity : Severity
  status : IncidentStatus
  createdAt : Nat
  resolvedAt : Option Nat
  aiAnalysis : Option String
  sourceTargetId : String
deriving DecidableEq, Repr

/-- Modelled from the spec: the Incident Manager's state, a most-recent-first
list of incidents plus the next unique id to assign. -/
structure ManagerState where
  nextId : Nat
  incidents : List Incident
deriving DecidableEq, Repr

def ManagerState.start : ManagerState := ⟨0, []⟩

/-- Modelled from the spec: the structured error for an unknown incident id
(section 7 taxonomy). -/
inductive MgrError where
  | notFound
deriving DecidableEq, Repr

/-- Modelled from the spec: `create` always succeeds, assigns a unique id,
`createdAt = now`, initial `status = open`, `aiAnalysis = null` (4.3);
new incidents go to the front so `list()` is most-recent-first. -/
def create (title description : String) (severity : Severity)
    (sourceTargetId : String) (now : Nat) (st : ManagerState) : ManagerState :=
  { nextId := st.nextId + 1,
    incidents :=
      ⟨st.nextId, title, description, severity, .opened, now, none, none,
        sourceTargetId⟩ :: st.incidents }

/-- Whether an open incident already exists for the given source target. -/
def hasOpenIncident (targetId : String) (st : ManagerState) : Bool :=
  st.incidents.any fun i =>
    decide (i.sourceTargetId = targetId ∧ i.status = IncidentStatus.opened)

/-- Modelled from the spec: the degradation transitions that trigger
incident creation (`healthy/degraded → unhealthy`, `healthy → degraded`). -/
def isDegradation : HealthStatus → HealthStatus → Bool
  | .healthy, .unhealthy => true
  | .degraded, .unhealthy => true
  | .healthy, .degraded => true
  | _, _ => false

/-- Modelled from the spec: severity of an auto-created incident, chosen by
the target's new health state (an implementation choice the spec leaves
free). -/
def severityFor : HealthStatus → Severity
  | .unhealthy => .high
  | .degraded => .medium
  | _ => .low

/-- Modelled from the spec: `createFromHealthTransition` deduplicates — if
an open incident already exists for the same `sourceTargetId`, no new
incident is created; otherwise a degradation transition creates one (4.3). -/
def createFromHealthTransition (targetId : String)
    (fromStatus toStatus : HealthStatus) (now : Nat)
    (st : ManagerState) : ManagerState :=
  if hasOpenIncident targetId st then st
  else if isDegradation fromStatus toStatus then
    create ("Health degradation of " ++ targetId)
      ("Automatic incident for health transition of " ++ targetId)
      (severityFor toStatus) targetId now st
  else st

/-- Modelled from the spec: `attachAnalysis` sets `aiAnalysis` if currently
null, is a no-op (not an error) if already set (4.3), and reports
`NotFoundError` for an unknown id (section 7); on error the state is
unchanged. -/
def attachAnalysis (incidentId : Nat) (text : String)
    (st : ManagerState) : ManagerState × Option MgrError :=
  if st.incidents.any (fun i => decide (i.id = incidentId)) then
    ({ st with incidents := st.incidents.map fun i =>
        if i.id = incidentId then
          (if i.aiAnalysis = none then { i with aiAnalysis := some text } else i)
        else i }, none)
  else (st, some .notFound)

/-- Modelled from the spec: `resolve` sets `status = resolved`,
`resolvedAt = now`; fails with `NotFoundError` (state unchanged) on an
unknown id; fails silently (no-op) if already resolved (4.3). -/
def resolve (incidentId : Nat) (now : Nat)
    (st : ManagerState) : ManagerState × Option MgrError :=
  if st.incidents.any (fun i => decide (i.id = incidentId)) then
    ({ st with incidents := st.incidents.map fun i =>
        if i.id = incidentId then
          (if i.status = IncidentStatus.opened then
            { i with status := .resolved, resolvedAt := some now }
          else i)
        else i }, none)
  else (st, some .notFound)

/-- Modelled from the spec: the demo-generation command synthesizes a small
batch of incidents, bypassing deduplication by design (4.3). -/
def generateDemoIncidents (now : Nat) (st : ManagerState) : ManagerState :=
  create "Elevated latency" "Demo incident" .low "sample-app" now
    (create "Error rate spike" "Demo incident" .medium "sample-app" now
      (create "Service outage" "Demo incident" .high "sample-app" now st))

/-- One Incident Manager operation, as a relation between states. -/
inductive MgrStep : ManagerState → ManagerState → Prop where
  | createStep (title description : String) (severity : Severity)
      (sourceTargetId : String) (now : Nat) (st : ManagerState) :
      MgrStep st (create title description severity sourceTargetId now st)
  | transitionStep (targetId : String) (fromStatus toStatus : HealthStatus)
      (now : Nat) (st : ManagerState) :
      MgrStep st (createFromHealthTransition targetId fromStatus toStatus now st)
  | attachStep (incidentId : Nat) (text : String) (st : ManagerState) :
      MgrStep st (attachAnalysis incidentId text st).1
  | resolveStep (incidentId : Nat) (now : Nat) (st : ManagerState) :
      MgrStep st (resolve incidentId now st).1
  | demoStep (now : Nat) (st : ManagerState) :
      MgrStep st (generateDemoIncidents now st)

/-- States of the Incident Manager reachable from the empty start state by
its operations. -/
inductive MgrReachable : ManagerState → Prop where
  | start : MgrReachable ManagerState.start
  | step {st st' : ManagerState} :
      MgrReachable st → MgrStep st st' → MgrReachable st'

/-- Number of open incidents for a given source target. -/
def openCountFor (targetId : String) (st : ManagerState) : Nat :=
  (st.incidents.filter fun i =>
    decide (i.sourceTargetId = targetId ∧ i.status = IncidentStatus.opened)).length

/- ### Health Evaluator (modelled from the spec, section 4.2) -/

/-- Modelled from the spec: one CounterSnapshot of section 3, extended with
the probe outcome (`failed` records a transport error / explicit failure
signal of the most recent check). -/
structure Snapshot where
  requestCount : Nat
  errorCount : Nat
  responseTimeAvgMs : ℚ
  timestamp : Nat
  failed : Bool
deriving DecidableEq, Repr

/-- Modelled from the spec: `errorRate = errorCount / max(requestCount, 1)`
(section 4.1). -/
def snapErrorRate (s : Snapshot) : ℚ :=
  (s.errorCount : ℚ) / (max s.requestCount 1 : ℚ)

/-- Modelled from the spec: the high error-rate threshold (≥ 10%). -/
def unhealthyErrorThreshold : ℚ := 1 / 10

/-- Modelled from the spec: the low error-rate threshold (≥ 1%). -/
def degradedErrorThreshold : ℚ := 1 / 100

/-- Modelled from the spec: the latency threshold in milliseconds (a tunable
constant; 500 ms chosen here). -/
def latencyThresholdMs : ℚ := 500

/-- Modelled from the spec: classification of a snapshot (4.2) —
`unhealthy` if the most recent check failed outright or the error rate
meets the high threshold; `degraded` if the error rate meets the low
threshold or latency exceeds the latency threshold; `healthy` otherwise. -/
def classify (s : Snapshot) : HealthStatus :=
  if s.failed = true ∨ snapErrorRate s ≥ unhealthyErrorThreshold then .unhealthy
  else if snapErrorRate s ≥ degradedErrorThreshold ∨
      s.responseTimeAvgMs > latencyThresholdMs then .degraded
  else .healthy

/-- Modelled from the spec: the Telemetry Counter Store keyed by target id;
each target's snapshot sequence is most-recent-first. -/
def TelemetryStore : Type := List (String × List Snapshot)

/-- The most recent snapshot recorded for a target, or `none`. -/
def latestSnapshot (store : TelemetryStore) (targetId : String) : Option Snapshot :=
  match store.lookup targetId with
  | none => none
  | some [] => none
  | some (s :: _) => some s

/-- Modelled from the spec: `evaluate(targetId)` — `unknown` if no snapshot
exists yet, otherwise the classification of the latest snapshot (4.2). -/
def evaluate (store : TelemetryStore) (targetId : String) : HealthStatus :=
  match latestSnapshot store targetId with
  | none => .unknown
  | some s => classify s

/- ### SLA Calculator (modelled from the spec, section 4.5) -/

/-- Modelled from the spec: one contiguous run of the health-history log —
a health state held for a duration in minutes (the per-run convention of
section 4.5 for downtime summation). -/
structure HealthInterval where
  status : HealthStatus
  durationMinutes : ℚ
deriving DecidableEq, Repr

/-- Modelled from the spec: the SLAReport read model of section 3. -/
structure SLAReport where
  availabilityPercentage : ℚ
  uptimePercentage : ℚ
  downtimeMinutes : ℚ
  slaTarget : ℚ
  mttrMinutes : ℚ
  incidentCount : Nat
  lastUpdated : Nat
deriving DecidableEq, Repr

/-- Modelled from the spec: `downtimeMinutes` = total time spent in the
`unhealthy` state within the window. -/
def downtimeOf (history : List HealthInterval) : ℚ :=
  (history.filterMap fun iv =>
    if iv.status = HealthStatus.unhealthy then some iv.durationMinutes
    else none).sum

/-- Durations `(resolvedAt - createdAt)` of resolved incidents, in minutes. -/
def resolutionTimes (incidents : List Incident) : List ℚ :=
  incidents.filterMap fun i =>
    match i.resolvedAt with
    | some r => some ((r - i.createdAt : Nat) : ℚ)
    | none => none

/-- Modelled from the spec: `mttrMinutes` = mean resolution time over
resolved incidents; 0 (not an error) if none exist. -/
def mttrOf (incidents : List Incident) : ℚ :=
  let ts := resolutionTimes incidents
  if ts.length = 0 then 0 else ts.sum / (ts.length : ℚ)

/-- Number of currently-open incidents (not total-ever). -/
def openIncidentCount (st : ManagerState) : Nat :=
  (st.incidents.filter fun i =>
    decide (i.status = IncidentStatus.opened)).length

/-- Modelled from the spec: `compute` of the SLA Calculator (4.5) — a pure
function of the health history and incident records over the window;
`uptimePercentage = 100 * (windowMinutes - downtimeMinutes) / windowMinutes`,
and `availabilityPercentage` mirrors it (no exclusion policy exists). -/
def computeSLA (windowMinutes slaTarget : ℚ)
    (history : List HealthInterval) (st : ManagerState)
    (now : Nat) : SLAReport :=
  let down := downtimeOf history
  let up := 100 * (windowMinutes - down) / windowMinutes
  { availabilityPercentage := up,
    uptimePercentage := up,
    downtimeMinutes := down,
    slaTarget := slaTarget,
    mttrMinutes := mttrOf st.incidents,
    incidentCount := openIncidentCount st,
    lastUpdated := now }

/-- Repeated `createFromHealthTransition` calls for one target, each call
carrying its own from/to statuses and timestamp. -/
def dedupFold (targetId : String) (st : ManagerState)
    (calls : List (HealthStatus × HealthStatus × Nat)) : ManagerState :=
  calls.foldl (fun s c => createFromHealthTransition targetId c.1 c.2.1 c.2.2 s) st

/-- The section-3 invariant: `resolvedAt` is set if and only if
`status = resolved`, for every incident in the state. -/
def ResolvedIffSet (st : ManagerState) : Prop :=
  ∀ i ∈ st.incidents,
    i.resolvedAt.isSome = true ↔ i.status = IncidentStatus.resolved

/-- A 43200-minute window holding exactly one 10-minute unhealthy run. -/
def slaExampleHistory : List HealthInterval :=
  [⟨.healthy, 21595⟩, ⟨.unhealthy, 10⟩, ⟨.healthy, 21595⟩]

/- ### Theorems -/

lemma map_congr_mem {α β : Type} (l : List α) (f g : α → β)
    (h : ∀ a ∈ l, f a = g a) : l.map f = l.map g := by
  induction l with
  | nil => rfl
  | cons a t ih =>
    simp only [List.map_cons, h a (List.mem_cons_self a t)]
    rw [ih (fun b hb => h b (List.mem_cons_of_mem a hb))]

lemma map_id_mem {α : Type} (l : List α) (f : α → α)
    (h : ∀ a ∈ l, f a = a) : l.map f = l := by
  rw [map_congr_mem l f id h, List.map_id]

lemma hasOpen_of_openCount_pos (targetId : String) (st : ManagerState)
    (h : 0 < openCountFor targetId st) : hasOpenIncident targetId st = true := by
  unfold openCountFor at h
  rw [List.length_pos] at h
  obtain ⟨i, hi⟩ := List.exists_mem_of_ne_nil _ h
  rw [List.mem_filter] at hi
  unfold hasOpenIncident
  rw [List.any_eq_true]
  exact ⟨i, hi.1, hi.2⟩

lemma createFromHealthTransition_noop (targetId : String)
    (fromStatus toStatus : HealthStatus) (now : Nat) (st : ManagerState)
    (h : hasOpenIncident targetId st = true) :
    createFromHealthTransition targetId fromStatus toStatus now st = st := by
  simp [createFromHealthTransition, h]

/-- Claim C1: while an open incident exists for a target — in the
deduplicated discipline, exactly one — any number of repeated
`createFromHealthTransition` calls for that target creates no new
incident: the state is unchanged and exactly one open incident remains for
that `sourceTargetId`. -/
theorem createFromHealthTransition_dedup (targetId : String) (st : ManagerState)
    (calls : List (HealthStatus × HealthStatus × Nat))
    (h : openCountFor targetId st = 1) :
    dedupFold targetId st calls = st ∧
    openCountFor targetId (dedupFold targetId st calls) = 1 := by
  have hopen : hasOpenIncident targetId st = true :=
    hasOpen_of_openCount_pos targetId st (by omega)
  have hfix : dedupFold targetId st calls = st := by
    induction calls with
    | nil => rfl
    | cons c cs ih =>
      unfold dedupFold
      rw [List.foldl_cons, createFromHealthTransition_noop _ _ _ _ _ hopen]
      exact ih
  exact ⟨hfix, by rw [hfix]; exact h⟩

lemma resolvedIffSet_create (title description : String) (sev : Severity)
    (tgt : String) (now : Nat) (st : ManagerState) (h : ResolvedIffSet st) :
    ResolvedIffSet (create title description sev tgt now st) := by
  intro i hi
  rcases List.mem_cons.mp hi with rfl | hmem
  · simp
  · exact h i hmem

lemma resolvedIffSet_transition (tgt : String) (s1 s2 : HealthStatus)
    (now : Nat) (st : ManagerState) (h : ResolvedIffSet st) :
    ResolvedIffSet (createFromHealthTransition tgt s1 s2 now st) := by
  unfold createFromHealthTransition
  split
  · exact h
  · split
    · exact resolvedIffSet_create _ _ _ _ _ _ h
    · exact h

lemma resolvedIffSet_attach (incidentId : Nat) (text : String)
    (st : ManagerState) (h : ResolvedIffSet st) :
    ResolvedIffSet (attachAnalysis incidentId text st).1 := by
  unfold attachAnalysis
  split
  · intro i hi
    obtain ⟨j, hj, rfl⟩ := List.mem_map.mp hi
    by_cases h1 : j.id = incidentId
    · by_cases h2 : j.aiAnalysis = none
      · rw [if_pos h1, if_pos h2]
        exact h j hj
      · rw [if_pos h1, if_neg h2]
        exact h j hj
    · rw [if_neg h1]
      exact h j hj
  · exact fun i hi => h i hi

lemma resolvedIffSet_resolve (incidentId now : Nat)
    (st : ManagerState) (h : ResolvedIffSet st) :
    ResolvedIffSet (resolve incidentId now st).1 := by
  unfold resolve
  split
  · intro i hi
    obtain ⟨j, hj, rfl⟩ := List.mem_map.mp hi
    by_cases h1 : j.id = incidentId
    · by_cases h2 : j.status = IncidentStatus.opened
      · rw [if_pos h1, if_pos h2]
        simp
      · rw [if_pos h1, if_neg h2]
        exact h j hj
    · rw [if_neg h1]
      exact h j hj
  · exact fun i hi => h i hi

lemma resolvedIffSet_demo (now : Nat) (st : ManagerState)
    (h : ResolvedIffSet st) : ResolvedIffSet (generateDemoIncidents now st) :=
  resolvedIffSet_create _ _ _ _ _ _
    (resolvedIffSet_create _ _ _ _ _ _ (resolvedIffSet_create _ _ _ _ _ _ h))

lemma resolvedIffSet_step {st st' : ManagerState} (hs : MgrStep st st')
    (h : ResolvedIffSet st) : ResolvedIffSet st' := by
  cases hs with
  | createStep title description sev tgt now st =>
    exact resolvedIffSet_create title description sev tgt now st h
  | transitionStep tgt s1 s2 now st =>
    exact resolvedIffSet_transition tgt s1 s2 now st h
  | attachStep incidentId text st =>
    exact resolvedIffSet_attach incidentId text st h
  | resolveStep incidentId now st =>
    exact resolvedIffSet_resolve incidentId now st h
  | demoStep now st =>
    exact resolvedIffSet_demo now st h

lemma resolvedIffSet_reachable (st : ManagerState) (h : MgrReachable st) :
    ResolvedIffSet st := by
  induction h with
  | start => exact fun i hi => absurd hi (List.not_mem_nil i)
  | step hr hs ih => exact resolvedIffSet_step hs ih

/-- Claim C2: `resolve` on an unknown id fails with NotFoundError leaving
the state unchanged; on a known open incident it sets `status = resolved`
and `resolvedAt = now`; on an already-resolved incident it is a silent
no-op that never reopens; and in every reachable Incident Manager state,
`resolvedAt` is set if and only if `status = resolved`. -/
theorem resolve_spec :
    (∀ (incidentId now : Nat) (st : ManagerState),
      (st.incidents.any fun i => decide (i.id = incidentId)) = false →
      resolve incidentId now st = (st, some MgrError.notFound)) ∧
    (∀ (incidentId now : Nat) (st : ManagerState) (i : Incident),
      i ∈ st.incidents → i.id = incidentId →
      i.status = IncidentStatus.opened →
      { i with status := IncidentStatus.resolved, resolvedAt := some now } ∈
        (resolve incidentId now st).1.incidents) ∧
    (∀ (incidentId now : Nat) (st : ManagerState),
      (st.incidents.any fun i => decide (i.id = incidentId)) = true →
      (∀ i ∈ st.incidents, i.id = incidentId →
        i.status = IncidentStatus.resolved) →
      resolve incidentId now st = (st, none)) ∧
    (∀ st : ManagerState, MgrReachable st → ResolvedIffSet st) := by
  refine ⟨?_, ?_, ?_, resolvedIffSet_reachable⟩
  · intro incidentId now st h
    simp [resolve, h]
  · intro incidentId now st i hmem hid hstat
    have hany : (st.incidents.any fun j => decide (j.id = incidentId)) = true :=
      List.any_eq_true.mpr ⟨i, hmem, by simp [hid]⟩
    unfold resolve
    rw [if_pos hany]
    refine List.mem_map.mpr ⟨i, hmem, ?_⟩
    rw [if_pos hid, if_pos hstat]
  · intro incidentId now st hany hres
    unfold resolve
    rw [if_pos hany]
    have hmap : st.incidents.map (fun i =>
        if i.id = incidentId then
          (if i.status = IncidentStatus.opened then
            { i with status := IncidentStatus.resolved, resolvedAt := some now }
          else i)
        else i) = st.incidents := by
      refine map_id_mem _ _ (fun j hj => ?_)
      by_cases h1 : j.id = incidentId
      · rw [if_pos h1, if_neg (by simp [hres j hj h1])]
      · rw [if_neg h1]
    rw [hmap]

/-- Witness for claim C2 at concrete states: resolving an unknown id in the
empty manager reports NotFoundError without change; resolving the single
open incident of a one-incident manager marks it resolved at the given
time; resolving it a second time is a silent no-op. -/
theorem resolve_spec_holds :
    resolve 7 1 ManagerState.start = (ManagerState.start, some MgrError.notFound) ∧
    (⟨0, "db down", "desc", Severity.high, IncidentStatus.resolved, 0, some 3,
        none, "db"⟩ : Incident) ∈
      (resolve 0 3
        (create "db down" "desc" Severity.high "db" 0 ManagerState.start)).1.incidents ∧
    resolve 0 9
        (resolve 0 3
          (create "db down" "desc" Severity.high "db" 0 ManagerState.start)).1 =
      ((resolve 0 3
          (create "db down" "desc" Severity.high "db" 0 ManagerState.start)).1, none) := by
  refine ⟨resolve_spec.1 7 1 ManagerState.start (by decide), ?_, ?_⟩
  · exact resolve_spec.2.1 0 3
      (create "db down" "desc" Severity.high "db" 0 ManagerState.start)
      ⟨0, "db down", "desc", Severity.high, IncidentStatus.opened, 0, none,
        none, "db"⟩
      (by decide) rfl rfl
  · exact resolve_spec.2.2.1 0 9
      (resolve 0 3
        (create "db down" "desc" Severity.high "db" 0 ManagerState.start)).1
      (by decide) (by decide)

lemma attach_id_of_all_set (incidentId : Nat) (text : String)
    (st : ManagerState)
    (hall : ∀ i ∈ st.incidents, i.id = incidentId → i.aiAnalysis ≠ none) :
    (attachAnalysis incidentId text st).1 = st := by
  unfold attachAnalysis
  split
  · show ({ st with incidents := st.incidents.map fun i =>
      if i.id = incidentId then
        (if i.aiAnalysis = none then { i with aiAnalysis := some text } else i)
      else i } : ManagerState) = st
    have hmap : (st.incidents.map fun i =>
        if i.id = incidentId then
          (if i.aiAnalysis = none then { i with aiAnalysis := some text } else i)
        else i) = st.incidents := by
      refine map_id_mem _ _ (fun j hj => ?_)
      by_cases h1 : j.id = incidentId
      · rw [if_pos h1, if_neg (hall j hj h1)]
      · rw [if_neg h1]
    rw [hmap]
  · rfl

lemma attach_sets_all (incidentId : Nat) (t1 : String) (st : ManagerState) :
    ∀ i ∈ (attachAnalysis incidentId t1 st).1.incidents,
      i.id = incidentId → i.aiAnalysis ≠ none := by
  unfold attachAnalysis
  split
  · intro i hi hid
    obtain ⟨j, hj, rfl⟩ := List.mem_map.mp hi
    by_cases h1 : j.id = incidentId
    · by_cases h2 : j.aiAnalysis = none
      · rw [if_pos h1, if_pos h2]
        simp
      · rw [if_pos h1, if_neg h2]
        exact h2
    · rw [if_neg h1] at hid
      exact absurd hid h1
  · rename_i hc
    intro i hi hid
    exact absurd (List.any_eq_true.mpr ⟨i, hi, by simp [hid]⟩) hc

lemma aiAnalysis_step {st st' : ManagerState} (hs : MgrStep st st') :
    ∀ i ∈ st.incidents, ∃ i' ∈ st'.incidents,
      i'.id = i.id ∧ i'.createdAt = i.createdAt ∧
      (i.aiAnalysis = none ∨ i'.aiAnalysis = i.aiAnalysis) := by
  cases hs with
  | createStep title description sev tgt now st =>
    exact fun i hi => ⟨i, List.mem_cons_of_mem _ hi, rfl, rfl, Or.inr rfl⟩
  | transitionStep tgt s1 s2 now st =>
    intro i hi
    refine ⟨i, ?_, rfl, rfl, Or.inr rfl⟩
    unfold createFromHealthTransition
    split
    · exact hi
    · split
      · exact List.mem_cons_of_mem _ hi
      · exact hi
  | attachStep incidentId text st =>
    intro i hi
    unfold attachAnalysis
    split
    · by_cases h1 : i.id = incidentId
      · by_cases h2 : i.aiAnalysis = none
        · exact ⟨_, List.mem_map_of_mem _ hi, by rw [if_pos h1, if_pos h2],
            by rw [if_pos h1, if_pos h2], Or.inl h2⟩
        · exact ⟨_, List.mem_map_of_mem _ hi, by rw [if_pos h1, if_neg h2],
            by rw [if_pos h1, if_neg h2], Or.inr (by rw [if_pos h1, if_neg h2])⟩
      · exact ⟨_, List.mem_map_of_mem _ hi, by rw [if_neg h1],
          by rw [if_neg h1], Or.inr (by rw [if_neg h1])⟩
    · exact ⟨i, hi, rfl, rfl, Or.inr rfl⟩
  | resolveStep incidentId now st =>
    intro i hi
    unfold resolve
    split
    · by_cases h1 : i.id = incidentId
      · by_cases h2 : i.status = IncidentStatus.opened
        · exact ⟨_, List.mem_map_of_mem _ hi, by rw [if_pos h1, if_pos h2],
            by rw [if_pos h1, if_pos h2], Or.inr (by rw [if_pos h1, if_pos h2])⟩
        · exact ⟨_, List.mem_map_of_mem _ hi, by rw [if_pos h1, if_neg h2],
            by rw [if_pos h1, if_neg h2], Or.inr (by rw [if_pos h1, if_neg h2])⟩
      · exact ⟨_, List.mem_map_of_mem _ hi, by rw [if_neg h1],
          by rw [if_neg h1], Or.inr (by rw [if_neg h1])⟩
    · exact ⟨i, hi, rfl, rfl, Or.inr rfl⟩
  | demoStep now st =>
    exact fun i hi => ⟨i,
      List.mem_cons_of_mem _ (List.mem_cons_of_mem _ (List.mem_cons_of_mem _ hi)),
      rfl, rfl, Or.inr rfl⟩

/-- Claim C3: `attachAnalysis` sets `aiAnalysis` when it is null, is a
no-op and not an error when it is already set, is idempotent (a second
call changes nothing), and across every Incident Manager operation
`aiAnalysis` only ever transitions from null to non-null — never the
reverse, and never between distinct non-null values. -/
theorem attachAnalysis_spec :
    (∀ (incidentId : Nat) (text : String) (st : ManagerState) (i : Incident),
      i ∈ st.incidents → i.id = incidentId → i.aiAnalysis = none →
      { i with aiAnalysis := some text } ∈
        (attachAnalysis incidentId text st).1.incidents) ∧
    (∀ (incidentId : Nat) (text : String) (st : ManagerState),
      (st.incidents.any fun i => decide (i.id = incidentId)) = true →
      (attachAnalysis incidentId text st).2 = none) ∧
    (∀ (incidentId : Nat) (text : String) (st : ManagerState) (i : Incident),
      i ∈ st.incidents → i.id = incidentId → i.aiAnalysis ≠ none →
      i ∈ (attachAnalysis incidentId text st).1.incidents) ∧
    (∀ (incidentId : Nat) (t1 t2 : String) (st : ManagerState),
      (attachAnalysis incidentId t2 (attachAnalysis incidentId t1 st).1).1 =
        (attachAnalysis incidentId t1 st).1) ∧
    (∀ (st st' : ManagerState), MgrStep st st' →
      ∀ i ∈ st.incidents, ∃ i' ∈ st'.incidents,
        i'.id = i.id ∧ i'.createdAt = i.createdAt ∧
        (i.aiAnalysis = none ∨ i'.aiAnalysis = i.aiAnalysis)) := by
  refine ⟨?_, ?_, ?_, ?_, fun st st' hs => aiAnalysis_step hs⟩
  · intro incidentId text st i hmem hid hnone
    have hany : (st.incidents.any fun j => decide (j.id = incidentId)) = true :=
      List.any_eq_true.mpr ⟨i, hmem, by simp [hid]⟩
    unfold attachAnalysis
    rw [if_pos hany]
    exact List.mem_map.mpr ⟨i, hmem, by rw [if_pos hid, if_pos hnone]⟩
  · intro incidentId text st hany
    simp [attachAnalysis, hany]
  · intro incidentId text st i hmem hid hset
    have hany : (st.incidents.any fun j => decide (j.id = incidentId)) = true :=
      List.any_eq_true.mpr ⟨i, hmem, by simp [hid]⟩
    unfold attachAnalysis
    rw [if_pos hany]
    exact List.mem_map.mpr ⟨i, hmem, by rw [if_pos hid, if_neg hset]⟩
  · intro incidentId t1 t2 st
    exact attach_id_of_all_set incidentId t2 _ (attach_sets_all incidentId t1 st)

/-- Witness for claim C3 at a concrete state: attaching an analysis to the
single open incident of a one-incident manager records it, and the call is
reported as a success. -/
theorem attachAnalysis_spec_holds :
    (⟨0, "db down", "desc", Severity.high, IncidentStatus.opened, 0, none,
        some "rca text", "db"⟩ : Incident) ∈
      (attachAnalysis 0 "rca text"
        (create "db down" "desc" Severity.high "db" 0 ManagerState.start)).1.incidents ∧
    (attachAnalysis 0 "rca text"
      (create "db down" "desc" Severity.high "db" 0 ManagerState.start)).2 = none := by
  constructor
  · exact attachAnalysis_spec.1 0 "rca text"
      (create "db down" "desc" Severity.high "db" 0 ManagerState.start)
      ⟨0, "db down", "desc", Severity.high, IncidentStatus.opened, 0, none,
        none, "db"⟩
      (by decide) rfl rfl
  · exact attachAnalysis_spec.2.1 0 "rca text"
      (create "db down" "desc" Severity.high "db" 0 ManagerState.start)
      (by decide)

/-- Claim C4: the SLA Calculator computes
`uptimePercentage = 100 * (windowMinutes - downtimeMinutes) / windowMinutes`,
`availabilityPercentage` equals `uptimePercentage` (no exclusion policy
exists), and one 10-minute unhealthy run inside a 43200-minute window
yields `downtimeMinutes = 10` and availability exactly
`100 * 43190 / 43200`, which is within 0.001 of 99.9767. -/
theorem computeSLA_spec :
    (∀ (w t : ℚ) (history : List HealthInterval) (st : ManagerState) (now : Nat),
      (computeSLA w t history st now).uptimePercentage =
        100 * (w - (computeSLA w t history st now).downtimeMinutes) / w ∧
      (computeSLA w t history st now).availabilityPercentage =
        (computeSLA w t history st now).uptimePercentage) ∧
    ((computeSLA 43200 (999/10) slaExampleHistory ManagerState.start 0).downtimeMinutes
        = 10 ∧
      (computeSLA 43200 (999/10) slaExampleHistory ManagerState.start 0).availabilityPercentage
        = 100 * 43190 / 43200 ∧
      |(computeSLA 43200 (999/10) slaExampleHistory ManagerState.start 0).availabilityPercentage
          - 999767 / 10000| < 1 / 1000) := by
  have hdown : downtimeOf slaExampleHistory = 10 := by
    simp [downtimeOf, slaExampleHistory]
  refine ⟨fun w t history st now => ⟨rfl, rfl⟩, hdown, ?_, ?_⟩
  · show 100 * ((43200 : ℚ) - downtimeOf slaExampleHistory) / 43200
      = 100 * 43190 / 43200
    rw [hdown]
    norm_num
  · show |100 * ((43200 : ℚ) - downtimeOf slaExampleHistory) / 43200
      - 999767 / 10000| < 1 / 1000
    rw [hdown, abs_sub_lt_iff]
    norm_num

lemma classify_unhealthy_of_rate (s : Snapshot)
    (h : snapErrorRate s ≥ unhealthyErrorThreshold) :
    classify s = HealthStatus.unhealthy := by
  unfold classify
  rw [if_pos (Or.inr h)]

/-- Claim C5: `evaluate` returns `unknown` when no snapshot exists for the
target; whenever the error rate meets or exceeds the unhealthy threshold
the classification is `unhealthy`, and `degraded` is never the result when
the error rate exceeds the unhealthy threshold, regardless of latency. -/
theorem evaluate_spec :
    (∀ (store : TelemetryStore) (targetId : String),
      latestSnapshot store targetId = none →
      evaluate store targetId = HealthStatus.unknown) ∧
    (∀ s : Snapshot, snapErrorRate s ≥ unhealthyErrorThreshold →
      classify s = HealthStatus.unhealthy) ∧
    (∀ (store : TelemetryStore) (targetId : String) (s : Snapshot),
      latestSnapshot store targetId = some s →
      snapErrorRate s ≥ unhealthyErrorThreshold →
      evaluate store targetId = HealthStatus.unhealthy) ∧
    (∀ s : Snapshot, snapErrorRate s > unhealthyErrorThreshold →
      classify s ≠ HealthStatus.degraded) := by
  refine ⟨?_, classify_unhealthy_of_rate, ?_, ?_⟩
  · intro store targetId h
    unfold evaluate
    rw [h]
  · intro store targetId s hlat h
    unfold evaluate
    rw [hlat]
    exact classify_unhealthy_of_rate s h
  · intro s h
    rw [classify_unhealthy_of_rate s (le_of_lt h)]
    simp

/-- Witness for claim C5 at concrete inputs: a target with an empty
snapshot sequence evaluates to `unknown`, and a snapshot with a 20% error
rate classifies as `unhealthy`. -/
theorem evaluate_spec_holds :
    evaluate [("api", [])] "api" = HealthStatus.unknown ∧
    classify ⟨10, 2, 100, 0, false⟩ = HealthStatus.unhealthy := by
  constructor
  · exact evaluate_spec.1 [("api", [])] "api" rfl
  · exact evaluate_spec.2.1 ⟨10, 2, 100, 0, false⟩
      (by norm_num [snapErrorRate, unhealthyErrorThreshold])

/-- Witness for claim C1: from the empty manager, one degradation call
opens exactly one incident for the target, and two further calls leave the
state unchanged with exactly one open incident. -/
theorem createFromHealthTransition_dedup_holds :
    dedupFold "api"
      (createFromHealthTransition "api" .healthy .unhealthy 0 ManagerState.start)
      [(HealthStatus.healthy, HealthStatus.unhealthy, 1),
       (HealthStatus.degraded, HealthStatus.unhealthy, 2)] =
      createFromHealthTransition "api" .healthy .unhealthy 0 ManagerState.start ∧
    openCountFor "api"
      (dedupFold "api"
        (createFromHealthTransition "api" .healthy .unhealthy 0 ManagerState.start)
        [(HealthStatus.healthy, HealthStatus.unhealthy, 1),
         (HealthStatus.degraded, HealthStatus.unhealthy, 2)]) = 1 :=
  createFromHealthTransition_dedup "api"
    (createFromHealthTransition "api" .healthy .unhealthy 0 ManagerState.start)
    [(HealthStatus.healthy, HealthStatus.unhealthy, 1),
     (HealthStatus.degraded, HealthStatus.unhealthy, 2)]
    (by decide)

lemma appStep_mono (e : AppEvent) (s : AppState) :
    s.requestCount ≤ (appStep e s).requestCount ∧
    s.errorCount ≤ (appStep e s).errorCount ∧
    s.responseTimeSum ≤ (appStep e s).responseTimeSum := by
  cases e with
  | health fail rt => cases fail <;> simp [appStep, healthHandler]
  | users fail rt => cases fail <;> simp [appStep, usersHandler]
  | orders fail rt => cases fail <;> simp [appStep, ordersHandler]
  | load => simp [appStep, loadHandler]

lemma appRun_mono (s : AppState) (es : List AppEvent) :
    s.requestCount ≤ (appRun s es).requestCount ∧
    s.errorCount ≤ (appRun s es).errorCount ∧
    s.responseTimeSum ≤ (appRun s es).responseTimeSum := by
  induction es generalizing s with
  | nil => simp [appRun]
  | cons e es ih =>
    have h1 := appStep_mono e s
    have h2 := ih (appStep e s)
    simp only [appRun, List.foldl_cons] at h2 ⊢
    exact ⟨le_trans h1.1 h2.1, le_trans h1.2.1 h2.2.1, le_trans h1.2.2 h2.2.2⟩

/-- Claim C6: the cumulative counters `requestCount`, `errorCount` and
`responseTimeSum` of the sample application are non-decreasing across
every handled request and every sequence of handled requests: no handler
ever decreases or resets any of them. -/
theorem sampleApp_counters_nondecreasing :
    (∀ (e : AppEvent) (s : AppState),
      s.requestCount ≤ (appStep e s).requestCount ∧
      s.errorCount ≤ (appStep e s).errorCount ∧
      s.responseTimeSum ≤ (appStep e s).responseTimeSum) ∧
    (∀ (s : AppState) (es : List AppEvent),
      s.requestCount ≤ (appRun s es).requestCount ∧
      s.errorCount ≤ (appRun s es).errorCount ∧
      s.responseTimeSum ≤ (appRun s es).responseTimeSum) :=
  ⟨appStep_mono, appRun_mono⟩

/-- Claim C7: the sample target's GET `/metrics` response carries exactly
four metric sample lines — `http_requests_total`, `http_errors_total`,
`http_response_time_avg` and `app_uptime` — each paired with its current
counter value. -/
theorem metrics_exposition_samples (s : AppState) (uptime : Nat) :
    sampleLines (metricsHandler s uptime) =
      [("http_requests_total", (s.requestCount : ℚ)),
       ("http_errors_total", (s.errorCount : ℚ)),
       ("http_response_time_avg", httpResponseTimeAvg s),
       ("app_uptime", (uptime : ℚ))] := rfl

/-- Claim C8: the dashboard renders COMPLIANT exactly when
`availability_percentage >= sla_target`, and NON-COMPLIANT otherwise. -/
theorem complianceBadge_spec (a t : ℚ) :
    (complianceBadge a t = "COMPLIANT" ↔ a ≥ t) ∧
    (complianceBadge a t = "NON-COMPLIANT" ↔ ¬ a ≥ t) := by
  unfold complianceBadge
  by_cases h : a ≥ t <;> simp [h]

/-- Claim C9: the simulated `/health` failure branch and the `/api/orders`
catch branch each increment `errorCount` by one and leave `requestCount`
unchanged; consequently an execution exists in which `errorCount` exceeds
`requestCount`, so the error rate derived as errorCount over requestCount
exceeds 100%. -/
theorem errorBranches_skip_requestCount :
    (∀ (rt : Nat) (s : AppState),
      (healthHandler true rt s).errorCount = s.errorCount + 1 ∧
      (healthHandler true rt s).requestCount = s.requestCount) ∧
    (∀ (rt : Nat) (s : AppState),
      (ordersHandler true rt s).errorCount = s.errorCount + 1 ∧
      (ordersHandler true rt s).requestCount = s.requestCount) ∧
    (∃ es : List AppEvent,
      (appRun initialAppState es).errorCount >
        (appRun initialAppState es).requestCount ∧
      derivedErrorRate (appRun initialAppState es) > 1) := by
  refine ⟨fun rt s => by simp [healthHandler],
    fun rt s => by simp [ordersHandler],
    ⟨[.load, .health true 0, .health true 0], ?_⟩⟩
  have hrun : appRun initialAppState [.load, .health true 0, .health true 0] =
      ⟨1, 2, 0⟩ := rfl
  rw [hrun]
  refine ⟨by decide, ?_⟩
  norm_num [derivedErrorRate]

/-- Claim C10: the `/metrics` handler never divides by zero when computing
`http_response_time_avg` — it reports 0 when `requestCount = 0` and
`responseTimeSum / requestCount` otherwise. -/
theorem responseTimeAvg_no_div_by_zero (s : AppState) :
    (s.requestCount = 0 → httpResponseTimeAvg s = 0) ∧
    (s.requestCount ≠ 0 →
      httpResponseTimeAvg s = (s.responseTimeSum : ℚ) / (s.requestCount : ℚ)) := by
  constructor
  · intro h
    simp [httpResponseTimeAvg, h]
  · intro h
    simp [httpResponseTimeAvg, Nat.pos_of_ne_zero h]

/-- Witness for claim C10 at concrete states: with no requests the reported
average is 0, and with two requests summing to 10 ms it is 5. -/
theorem responseTimeAvg_no_div_by_zero_holds :
    httpResponseTimeAvg ⟨0, 3, 7⟩ = 0 ∧ httpResponseTimeAvg ⟨2, 0, 10⟩ = 5 := by
  constructor
  · exact (responseTimeAvg_no_div_by_zero ⟨0, 3, 7⟩).1 rfl
  · have h := (responseTimeAvg_no_div_by_zero ⟨2, 0, 10⟩).2 (by decide)
    rw [h]
    norm_num
